import Mathlib

/-!
# Verification of the SageMaker tutorial notebooks

Shallow embedding of the two notebooks in this repository:

* the Abalone pipeline notebook (preprocessing script, evaluation script,
  condition step, fail step, pipeline assembly), and
* the serverless-endpoint notebook (guarded create calls, the status
  polling loop, CSV invoke payload and response handling).

Floating-point numbers in the scripts are modelled as exact rationals;
the standard deviation (a square root) lives in `ℝ`.
-/

namespace Spec2Proof

/-! ## Pipeline parameters

From the pipeline notebook: `mse_threshold = ParameterFloat(name="MseThreshold",
default_value=6.0)`. -/

def mse_threshold_name : String := "MseThreshold"

def mse_threshold_default : ℚ := 6

/-! ## Condition step (`cond_lte` / `step_cond`)

`cond_lte = ConditionLessThanOrEqualTo(left=JsonGet(... json_path=
"regression_metrics.mse.value"), right=mse_threshold)` and
`step_cond = ConditionStep(name="AbaloneMSECond", conditions=[cond_lte],
if_steps=[step_register, step_create_model, step_transform],
else_steps=[step_fail])`. -/

def json_path : String := "regression_metrics.mse.value"

/-- `ConditionLessThanOrEqualTo(left, right)` evaluated on the two numbers. -/
def conditionLessThanOrEqualTo (left right : ℚ) : Bool := left ≤ right

/-- The `if_steps` list of `step_cond`, by step name, in source order. -/
def step_cond_if_steps : List String :=
  ["AbaloneRegisterModel", "AbaloneCreateModel", "AbaloneTransform"]

/-- The `else_steps` list of `step_cond`, by step name. -/
def step_cond_else_steps : List String := ["AbaloneMSEFail"]

/-- A `ConditionStep` executes its `if_steps` when all conditions hold,
its `else_steps` otherwise. -/
def conditionStepRoute (conds : List Bool) (ifSteps elseSteps : List String) :
    List String :=
  if conds.all (fun b => b) then ifSteps else elseSteps

/-- The branch of `step_cond` taken when the extracted MSE is `mse` and the
`MseThreshold` parameter is `thr`. -/
def step_cond_route (mse thr : ℚ) : List String :=
  conditionStepRoute [conditionLessThanOrEqualTo mse thr]
    step_cond_if_steps step_cond_else_steps

/-! ## Fail step (`step_fail`)

`step_fail = FailStep(name="AbaloneMSEFail", error_message=Join(on=" ",
values=["Execution failed due to MSE >", mse_threshold]))`. -/

/-- `Join(on, values)` from `sagemaker.workflow.functions`. -/
def workflowJoin (sep : String) (values : List String) : String :=
  String.intercalate sep values

def step_fail_name : String := "AbaloneMSEFail"

/-- The rendered `error_message` of `step_fail`, given the string the
orchestrator substitutes for the `MseThreshold` parameter. -/
def step_fail_error_message (thr : String) : String :=
  workflowJoin " " ["Execution failed due to MSE >", thr]

/-! ## Preprocessing script: CSV schema (`preprocessing.py`) -/

/-- A pandas column dtype as used by the script (`str` or `np.float64`). -/
inductive DType where
  | str : DType
  | float64 : DType
deriving DecidableEq, Repr

def feature_columns_names : List String :=
  ["sex", "length", "diameter", "height", "whole_weight",
   "shucked_weight", "viscera_weight", "shell_weight"]

def label_column : String := "rings"

def feature_columns_dtype : List (String × DType) :=
  [("sex", DType.str), ("length", DType.float64), ("diameter", DType.float64),
   ("height", DType.float64), ("whole_weight", DType.float64),
   ("shucked_weight", DType.float64), ("viscera_weight", DType.float64),
   ("shell_weight", DType.float64)]

def label_column_dtype : List (String × DType) := [("rings", DType.float64)]

/-- `merge_two_dicts(x, y)`: a copy of `x` updated with `y` (entries of `y`
override entries of `x` with the same key). -/
def merge_two_dicts (x y : List (String × DType)) : List (String × DType) :=
  x.filter (fun p => (y.lookup p.1).isNone) ++ y

/-- The arguments the preprocessing script passes to `pd.read_csv`. -/
structure ReadCsvArgs where
  header : Option ℕ
  names : List String
  dtype : List (String × DType)
deriving DecidableEq, Repr

/-- `pd.read_csv(..., header=None, names=feature_columns_names +
[label_column], dtype=merge_two_dicts(feature_columns_dtype,
label_column_dtype))`. -/
def preprocessing_read_csv_args : ReadCsvArgs :=
  { header := none
    names := feature_columns_names ++ [label_column]
    dtype := merge_two_dicts feature_columns_dtype label_column_dtype }

/-! ## Preprocessing script: shuffle and split (`preprocessing.py`)

`X = np.concatenate((y_pre, X_pre), axis=1)`, `np.random.shuffle(X)`,
`train, validation, test = np.split(X, [int(0.7 * len(X)), int(0.85 * len(X))])`. -/

/-- `np.concatenate((y_pre, X_pre), axis=1)`: prepend each label to its
feature row. -/
def preprocess_rows (y : List ℚ) (X : List (List ℚ)) : List (List ℚ) :=
  List.zipWith (fun a x => a :: x) y X

/-- The exact value of the IEEE binary64 double written `0.7` in the script:
`6305039478318694 / 2^53 = 0.6999999999999999555910790149937…`. -/
def float_0_7 : ℚ := 6305039478318694 / 2 ^ 53

/-- The exact value of the IEEE binary64 double written `0.85` in the script:
`7656119366529843 / 2^53 = 0.8499999999999999777955395074968…`. -/
def float_0_85 : ℚ := 7656119366529843 / 2 ^ 53

/-- Round a rational to the nearest integer, ties to even (the IEEE default
rounding of the significand). -/
def roundNearestEven (x : ℚ) : ℤ :=
  if x - ⌊x⌋ < 1 / 2 then ⌊x⌋
  else if 1 / 2 < x - ⌊x⌋ then ⌊x⌋ + 1
  else if 2 ∣ ⌊x⌋ then ⌊x⌋ else ⌊x⌋ + 1

/-- Round a nonnegative rational to the nearest IEEE binary64 double
(round-to-nearest, ties-to-even), expressed exactly as a rational: normalize
to a 53-bit significand in `[2^52, 2^53)`, round it to an integer, scale
back. Zero maps to zero; overflow and subnormals, which the notebook's
values never reach, are not modelled. -/
def roundDouble (q : ℚ) : ℚ :=
  if q = 0 then 0
  else (roundNearestEven (q * 2 ^ (52 - Int.log 2 q)) : ℚ) *
    2 ^ (Int.log 2 q - 52)

/-- `int(0.7 * len(X))`: the length converted to a double, multiplied by the
double `0.7` with the product rounded to nearest-even, then truncated. -/
def split_idx_train (n : ℕ) : ℕ :=
  (⌊roundDouble (float_0_7 * roundDouble n)⌋).toNat

/-- `int(0.85 * len(X))`: the length converted to a double, multiplied by
the double `0.85` with the product rounded to nearest-even, then
truncated. -/
def split_idx_valid (n : ℕ) : ℕ :=
  (⌊roundDouble (float_0_85 * roundDouble n)⌋).toNat

/-- `np.split(X, [a, b])` for a list: the slices `X[:a]`, `X[a:b]`, `X[b:]`. -/
def np_split2 {α : Type} (X : List α) (a b : ℕ) : List α × List α × List α :=
  (X.take a, (X.drop a).take (b - a), X.drop b)

/-- The three datasets the preprocessing script writes, as a function of the
already-shuffled row list. -/
def preprocessing_split {α : Type} (X : List α) : List α × List α × List α :=
  np_split2 X (split_idx_train X.length) (split_idx_valid X.length)

/-! ## Evaluation script (`evaluation.py`)

`y_test = df.iloc[:, 0].to_numpy()`, `df.drop(df.columns[0], axis=1)`,
`predictions = model.predict(X_test)`, `mse = mean_squared_error(y_test,
predictions)`, `std = np.std(y_test - predictions)`, and the report
`{"regression_metrics": {"mse": {"value": mse, "standard_deviation": std}}}`. -/

/-- `y_test - predictions`, elementwise. -/
def residuals (y p : List ℚ) : List ℚ := List.zipWith (fun a b => a - b) y p

/-- `np.mean` on a list of rationals. -/
def listMean (xs : List ℚ) : ℚ := xs.sum / xs.length

/-- `sklearn.metrics.mean_squared_error`: the mean of the squared residuals. -/
def mean_squared_error (y p : List ℚ) : ℚ :=
  listMean ((residuals y p).map (fun r => r * r))

/-- The population variance, `np.mean((xs - np.mean(xs))**2)`. -/
def listVariance (xs : List ℚ) : ℚ :=
  listMean (xs.map (fun x => (x - listMean xs) * (x - listMean xs)))

/-- `np.std`: the square root of the population variance. -/
noncomputable def np_std (xs : List ℚ) : ℝ := Real.sqrt (listVariance xs)

/-- A JSON value: a number or an object (field list in order). -/
inductive JsonVal where
  | num : ℝ → JsonVal
  | obj : List (String × JsonVal) → JsonVal

/-- Column 0 of the test CSV, read by the evaluation script as the labels. -/
def eval_y_test (df : List (List ℚ)) : List ℚ := df.map List.headI

/-- The remaining columns, read by the evaluation script as the features. -/
def eval_x_test (df : List (List ℚ)) : List (List ℚ) := df.map List.tail

/-- `model.predict(X_test)` for an abstract row model. -/
def eval_predictions (model : List ℚ → ℚ) (df : List (List ℚ)) : List ℚ :=
  (eval_x_test df).map model

/-- `report_dict` as written by the evaluation script, given the labels and
predictions it computed. -/
noncomputable def report_dict (y p : List ℚ) : JsonVal :=
  JsonVal.obj
    [("regression_metrics", JsonVal.obj
      [("mse", JsonVal.obj
        [("value", JsonVal.num ((mean_squared_error y p : ℚ) : ℝ)),
         ("standard_deviation", JsonVal.num (np_std (residuals y p)))])])]

/-- The report the evaluation script writes to `evaluation.json`, as a
function of the test CSV contents and the model. -/
noncomputable def evaluation_report (model : List ℚ → ℚ)
    (df : List (List ℚ)) : JsonVal :=
  report_dict (eval_y_test df) (eval_predictions model df)

/-! ## `JsonGet` path lookup -/

/-- Split a character list at every occurrence of `sep`. -/
def splitOnChar (sep : Char) : List Char → List (List Char)
  | [] => [[]]
  | c :: cs =>
    let r := splitOnChar sep cs
    if c = sep then [] :: r else (c :: r.headI) :: r.tail

/-- Split a dotted JSON path into its components. -/
def splitPath (s : String) : List String :=
  (splitOnChar '.' s.toList).map (fun cs => String.mk cs)

/-- Follow a component list through nested JSON objects. -/
def jsonLookup : JsonVal → List String → Option JsonVal
  | v, [] => some v
  | JsonVal.num _, _ :: _ => none
  | JsonVal.obj fields, k :: ks =>
    match fields.lookup k with
    | none => none
    | some v => jsonLookup v ks

/-- `JsonGet(..., json_path=p)` applied to a report value. -/
def jsonGet (v : JsonVal) (p : String) : Option JsonVal :=
  jsonLookup v (splitPath p)

/-! ## Serverless notebook: names and guarded create cells -/

def model_name : String := "fraud-detect-xgb"

def endpoint_config_name : String := model_name ++ "-serverless-epconfig"

def endpoint_name : String := model_name ++ "-serverless-ep"

/-- `NameContains` filtering: does `name` contain `sub` as a substring? -/
def nameContains (name sub : String) : Bool :=
  decide (sub.toList <:+: name.toList)

/-- The service-side entity names visible to this account. -/
structure SmService where
  models : List String
  endpointConfigs : List String
  endpoints : List String
deriving DecidableEq, Repr

/-- The externally observable actions a notebook cell performs. -/
inductive Action where
  | createModel : String → Action
  | createEndpointConfig : String → Action
  | createEndpoint : String → Action
  | printed : String → Action
deriving DecidableEq, Repr

/-- `sm_client.list_models(NameContains=sub)`. -/
def list_models (svc : SmService) (sub : String) : List String :=
  svc.models.filter (fun n => nameContains n sub)

/-- `sm_client.list_endpoint_configs(NameContains=sub)`. -/
def list_endpoint_configs (svc : SmService) (sub : String) : List String :=
  svc.endpointConfigs.filter (fun n => nameContains n sub)

/-- `sm_client.list_endpoints(NameContains=sub)`. -/
def list_endpoints (svc : SmService) (sub : String) : List String :=
  svc.endpoints.filter (fun n => nameContains n sub)

/-- The model-creation cell: create the model only when the filtered list is
empty, otherwise print and leave the service untouched. -/
def create_model_cell (svc : SmService) : SmService × List Action :=
  if (list_models svc model_name).isEmpty then
    ({ svc with models := svc.models ++ [model_name] },
     [Action.createModel model_name])
  else
    (svc, [Action.printed ("Model with name " ++ model_name ++
      " already exists! Change model name to create new")])

/-- The endpoint-config cell, same guard shape. -/
def create_endpoint_config_cell (svc : SmService) : SmService × List Action :=
  if (list_endpoint_configs svc endpoint_config_name).isEmpty then
    ({ svc with endpointConfigs := svc.endpointConfigs ++ [endpoint_config_name] },
     [Action.createEndpointConfig endpoint_config_name])
  else
    (svc, [Action.printed ("Endpoint config with name " ++ endpoint_config_name ++
      " already exists! Change endpoint config name to create new")])

/-- The endpoint-creation cell, same guard shape. -/
def create_endpoint_cell (svc : SmService) : SmService × List Action :=
  if (list_endpoints svc endpoint_name).isEmpty then
    ({ svc with endpoints := svc.endpoints ++ [endpoint_name] },
     [Action.createEndpoint endpoint_name])
  else
    (svc, [Action.printed ("Endpoint with name " ++ endpoint_name ++
      " already exists! Change endpoint name to create new")])

/-! ## Serverless notebook: status polling loop

`resp = sm_client.describe_endpoint(...)`; `status = resp["EndpointStatus"]`;
`while status == "Creating": print(...); time.sleep(60); resp = ...;
status = ...`. `status : ℕ → String` gives the status returned by the k-th
describe call; the first component of the result is the list of sleep
durations performed, the second is `some k` when the loop exited after the
k-th describe, `none` when the fuel ran out with the loop still going. -/

def pollTrace (status : ℕ → String) : ℕ → ℕ → List ℕ × Option ℕ
  | 0, _ => ([], none)
  | fuel + 1, k =>
    if status k = "Creating" then
      let r := pollTrace status fuel (k + 1)
      (60 :: r.1, r.2)
    else ([], some k)

/-- A sample status history: the endpoint reports `"Creating"` for the first
two describe calls and `"InService"` from then on. -/
def statusW : ℕ → String := fun j => if j < 2 then "Creating" else "InService"

/-- A sample service state in which all three entity names already exist. -/
def svcExisting : SmService :=
  { models := ["fraud-detect-xgb"]
    endpointConfigs := ["fraud-detect-xgb-serverless-epconfig"]
    endpoints := ["fraud-detect-xgb-serverless-ep"] }

/-! ## Serverless notebook: invoke payload and response -/

/-- A pandas DataFrame with named columns and string-rendered cells. -/
structure DataFrame where
  cols : List String
  rows : List (List String)

/-- `df.drop([c], axis=1)`. -/
def dropColumn (df : DataFrame) (c : String) : DataFrame :=
  let i := df.cols.indexOf c
  ⟨df.cols.eraseIdx i, df.rows.map (fun r => r.eraseIdx i)⟩

/-- `df.iloc[:n]`. -/
def ilocTake (df : DataFrame) (n : ℕ) : DataFrame :=
  ⟨df.cols, df.rows.take n⟩

/-- `df.to_csv(csv_file, sep=",", header=False, index=False)`: each row is
its comma-joined cells followed by a newline; no header line, no index. -/
def to_csv_no_header (df : DataFrame) : String :=
  String.join (df.rows.map (fun r => String.intercalate "," r ++ "\n"))

/-- The request body of `invoke_endpoint`: the test frame with the `fraud`
column dropped, restricted to the first five rows, CSV-serialized. -/
def invoke_payload (test_df : DataFrame) : String :=
  to_csv_no_header (ilocTake (dropColumn test_df "fraud") 5)

/-- Split a character list at every character satisfying `p`. -/
def splitOnPred (p : Char → Bool) : List Char → List (List Char)
  | [] => [[]]
  | c :: cs =>
    let r := splitOnPred p cs
    if p c then [] :: r else (c :: r.headI) :: r.tail

/-- `re.split(",|\n", result)` on the UTF-8 decoded response body. -/
def re_split_commas_newlines (s : String) : List String :=
  (splitOnPred (fun c => c = ',' || c = '\n') s.toList).map
    (fun cs => String.mk cs)

/-- `test_df[c]`: the column of `df` named `c`. -/
def dfColumn (df : DataFrame) (c : String) : List String :=
  df.rows.map (fun r => r.getD (df.cols.indexOf c) "")

/-- The `prediction_df` rows: the first five split response entries paired
positionally with the first five `fraud` labels. -/
def prediction_pairs (test_df : DataFrame) (response : String) :
    List (String × String) :=
  List.zip ((re_split_commas_newlines response).take 5)
    ((dfColumn test_df "fraud").take 5)

/-! ## Error propagation (both notebooks)

Neither notebook wraps any SDK call in `try`/`except`: an error raised by a
call aborts the run unchanged. The oracle gives each SDK call's outcome;
the interpreter replays the notebook's control flow, recording the
chronological list of SDK calls attempted, and stops at the first error,
returning it as-is. -/

/-- Outcomes of every SDK call the serverless notebook makes. -/
structure SmOracle (ε : Type) where
  listModels : Except ε (List String)
  createModel : Except ε Unit
  listEndpointConfigs : Except ε (List String)
  createEndpointConfig : Except ε Unit
  listEndpoints : Except ε (List String)
  createEndpoint : Except ε Unit
  describeEndpoint : ℕ → Except ε String
  invokeEndpoint : Except ε String
  deleteModel : Except ε Unit
  deleteEndpointConfig : Except ε Unit
  deleteEndpoint : Except ε Unit

/-- Record one SDK call attempt together with its outcome. -/
def callT {ε α : Type} (name : String) (r : Except ε α) :
    List String × Except ε α :=
  ([name], r)

/-- Sequence two traced computations; an error short-circuits and is
returned unchanged. -/
def andThen {ε α β : Type} (x : List String × Except ε α)
    (f : α → List String × Except ε β) : List String × Except ε β :=
  match x with
  | (tr, Except.error e) => (tr, Except.error e)
  | (tr, Except.ok a) =>
    let y := f a
    (tr ++ y.1, y.2)

/-- The traced polling loop of the serverless notebook: while the status is
`"Creating"`, re-describe the endpoint; a describe error aborts the loop. -/
def pollLoopT {ε : Type} (describe : ℕ → Except ε String) :
    ℕ → ℕ → String → List String × Except ε Unit
  | 0, _, _ => ([], Except.ok ())
  | fuel + 1, k, status =>
    if status = "Creating" then
      andThen (callT "describe_endpoint" (describe k))
        (fun st => pollLoopT describe fuel (k + 1) st)
    else ([], Except.ok ())

/-- The serverless notebook's SDK-call sequence: guarded creates, the
initial describe, the polling loop, invoke, and the three deletes. -/
def serverlessRunT {ε : Type} (o : SmOracle ε) (fuel : ℕ) :
    List String × Except ε Unit :=
  andThen (callT "list_models" o.listModels) (fun models =>
  andThen (if models.isEmpty then callT "create_model" o.createModel
           else ([], Except.ok ())) (fun _ =>
  andThen (callT "list_endpoint_configs" o.listEndpointConfigs) (fun cfgs =>
  andThen (if cfgs.isEmpty then callT "create_endpoint_config" o.createEndpointConfig
           else ([], Except.ok ())) (fun _ =>
  andThen (callT "list_endpoints" o.listEndpoints) (fun eps =>
  andThen (if eps.isEmpty then callT "create_endpoint" o.createEndpoint
           else ([], Except.ok ())) (fun _ =>
  andThen (callT "describe_endpoint" (o.describeEndpoint 0)) (fun st =>
  andThen (pollLoopT o.describeEndpoint fuel 1 st) (fun _ =>
  andThen (callT "invoke_endpoint" (o.invokeEndpoint)) (fun _ =>
  andThen (callT "delete_model" o.deleteModel) (fun _ =>
  andThen (callT "delete_endpoint_config" o.deleteEndpointConfig) (fun _ =>
  callT "delete_endpoint" o.deleteEndpoint)))))))))))

/-- An oracle whose `i`-th call site fails with `e` and whose other calls
succeed with benign values (empty list results, so every create runs;
`"InService"` describes, except that for `i = 7` the first describe says
`"Creating"` so the in-loop describe is reached). -/
def smOracleFail {ε : Type} (e : ε) (i : ℕ) : SmOracle ε :=
  { listModels := if i = 0 then Except.error e else Except.ok []
    createModel := if i = 1 then Except.error e else Except.ok ()
    listEndpointConfigs := if i = 2 then Except.error e else Except.ok []
    createEndpointConfig := if i = 3 then Except.error e else Except.ok ()
    listEndpoints := if i = 4 then Except.error e else Except.ok []
    createEndpoint := if i = 5 then Except.error e else Except.ok ()
    describeEndpoint := fun k =>
      if i = 6 then Except.error e
      else if i = 7 then
        (if k = 0 then Except.ok "Creating" else Except.error e)
      else Except.ok "InService"
    invokeEndpoint := if i = 8 then Except.error e else Except.ok "0.1"
    deleteModel := if i = 9 then Except.error e else Except.ok ()
    deleteEndpointConfig := if i = 10 then Except.error e else Except.ok ()
    deleteEndpoint := if i = 11 then Except.error e else Except.ok () }

/-- Outcomes of every SDK call the pipeline notebook makes: the two dataset
downloads, the two uploads, and the `pipeline.upsert` submission. -/
structure PipelineOracle (ε : Type) where
  downloadDataset : Except ε Unit
  uploadDataset : Except ε Unit
  downloadBatch : Except ε Unit
  uploadBatch : Except ε Unit
  upsert : Except ε Unit

/-- The pipeline notebook's SDK-call sequence. -/
def pipelineRunT {ε : Type} (o : PipelineOracle ε) :
    List String × Except ε Unit :=
  andThen (callT "download_file" o.downloadDataset) (fun _ =>
  andThen (callT "upload" o.uploadDataset) (fun _ =>
  andThen (callT "download_file" o.downloadBatch) (fun _ =>
  andThen (callT "upload" o.uploadBatch) (fun _ =>
  callT "upsert" o.upsert))))

/-- A pipeline oracle whose `i`-th call fails with `e`. -/
def pipelineOracleFail {ε : Type} (e : ε) (i : ℕ) : PipelineOracle ε :=
  { downloadDataset := if i = 0 then Except.error e else Except.ok ()
    uploadDataset := if i = 1 then Except.error e else Except.ok ()
    downloadBatch := if i = 2 then Except.error e else Except.ok ()
    uploadBatch := if i = 3 then Except.error e else Except.ok ()
    upsert := if i = 4 then Except.error e else Except.ok () }

/-! ## Theorems -/

/-- C1: the conditional step routes to the register branch (its `if_steps`)
exactly when the extracted `regression_metrics.mse.value` is ≤ the
`MseThreshold` parameter (default 6.0), to the fail branch exactly when the
MSE strictly exceeds the threshold, and there is no third outcome. -/
theorem c1_condition_routes_on_mse_threshold (mse thr : ℚ) :
    (step_cond_route mse thr = step_cond_if_steps ↔ mse ≤ thr)
    ∧ (step_cond_route mse thr = step_cond_else_steps ↔ thr < mse)
    ∧ (step_cond_route mse thr = step_cond_if_steps ∨
        step_cond_route mse thr = step_cond_else_steps)
    ∧ "AbaloneRegisterModel" ∈ step_cond_if_steps
    ∧ step_cond_else_steps = [step_fail_name]
    ∧ mse_threshold_default = 6 := by
  have hne : step_cond_if_steps ≠ step_cond_else_steps := by decide
  by_cases h : mse ≤ thr
  · have hr : step_cond_route mse thr = step_cond_if_steps := by
      simp [step_cond_route, conditionStepRoute, conditionLessThanOrEqualTo, h]
    refine ⟨?_, ?_, Or.inl hr, by decide, rfl, rfl⟩
    · rw [hr]; simp [h]
    · rw [hr]; simp [hne, not_lt.mpr h]
  · have hr : step_cond_route mse thr = step_cond_else_steps := by
      simp [step_cond_route, conditionStepRoute, conditionLessThanOrEqualTo, h]
    refine ⟨?_, ?_, Or.inr hr, by decide, rfl, rfl⟩
    · rw [hr]; simp [Ne.symm hne, h]
    · rw [hr]; simp [not_le.mp h]

/-- C3 counterexample: the pass branch of the condition step is not
create-model, register-model, batch-transform in that order. -/
theorem c3_pass_branch_order_counterexample :
    step_cond_if_steps ≠
      ["AbaloneCreateModel", "AbaloneRegisterModel", "AbaloneTransform"] := by
  decide

/-- C3 (amended): the pass branch consists of the register-model step, the
create-model step and the batch-transform step, in that order; the fail
branch is exactly the one fail step, whose error message reports that
execution failed due to MSE exceeding the threshold. -/
theorem c3_branch_contents :
    step_cond_if_steps =
      ["AbaloneRegisterModel", "AbaloneCreateModel", "AbaloneTransform"]
    ∧ step_cond_else_steps = [step_fail_name]
    ∧ step_cond_else_steps.length = 1
    ∧ (∀ t, step_fail_error_message t = "Execution failed due to MSE > " ++ t) := by
  refine ⟨rfl, rfl, rfl, fun t => ?_⟩
  have h1 : step_fail_error_message t =
      ("Execution failed due to MSE >" ++ " ") ++ t := rfl
  have h2 : ("Execution failed due to MSE >" ++ " " : String) =
      "Execution failed due to MSE > " := by decide
  rw [h1, h2]

/-- C5: the preprocessing script reads a headerless CSV with the eight named
feature columns plus the `rings` label column, `sex` typed as a string and
every other column as a float. -/
theorem c5_preprocessing_csv_schema :
    preprocessing_read_csv_args.header = none
    ∧ feature_columns_names.length = 8
    ∧ preprocessing_read_csv_args.names =
        ["sex", "length", "diameter", "height", "whole_weight",
         "shucked_weight", "viscera_weight", "shell_weight", "rings"]
    ∧ preprocessing_read_csv_args.dtype =
        [("sex", DType.str), ("length", DType.float64),
         ("diameter", DType.float64), ("height", DType.float64),
         ("whole_weight", DType.float64), ("shucked_weight", DType.float64),
         ("viscera_weight", DType.float64), ("shell_weight", DType.float64),
         ("rings", DType.float64)] := by
  decide

theorem listVariance_nonneg (xs : List ℚ) : 0 ≤ listVariance xs := by
  unfold listVariance listMean
  apply div_nonneg
  · apply List.sum_nonneg
    intro x hx
    rcases List.mem_map.mp hx with ⟨a, _, rfl⟩
    exact mul_self_nonneg _
  · exact_mod_cast Nat.zero_le _

/-- C2: the evaluation report has exactly the two-level key layout
`regression_metrics.mse.value` / `regression_metrics.mse.standard_deviation`;
the value is the mean squared error of the column-0 labels against the
predictions, the standard deviation is the (nonnegative) square root of the
variance of the residuals, and `JsonGet` with the condition step's
`json_path` reads that value back out of the same report. -/
theorem c2_evaluation_report_layout (model : List ℚ → ℚ) (df : List (List ℚ)) :
    evaluation_report model df =
      JsonVal.obj
        [("regression_metrics", JsonVal.obj
          [("mse", JsonVal.obj
            [("value", JsonVal.num ((mean_squared_error (df.map List.headI)
                ((df.map List.tail).map model) : ℚ) : ℝ)),
             ("standard_deviation", JsonVal.num (np_std (residuals
                (df.map List.headI) ((df.map List.tail).map model))))])])]
    ∧ splitPath json_path = ["regression_metrics", "mse", "value"]
    ∧ jsonGet (evaluation_report model df) json_path =
        some (JsonVal.num ((mean_squared_error (eval_y_test df)
          (eval_predictions model df) : ℚ) : ℝ))
    ∧ np_std (residuals (eval_y_test df) (eval_predictions model df)) ^ 2 =
        ((listVariance (residuals (eval_y_test df)
          (eval_predictions model df)) : ℚ) : ℝ)
    ∧ 0 ≤ np_std (residuals (eval_y_test df) (eval_predictions model df)) := by
  refine ⟨rfl, rfl, rfl, ?_, Real.sqrt_nonneg _⟩
  exact Real.sq_sqrt (by exact_mod_cast listVariance_nonneg _)

theorem roundNearestEven_le (x : ℚ) : (roundNearestEven x : ℚ) ≤ x + 1 / 2 := by
  have h1 : (⌊x⌋ : ℚ) ≤ x := Int.floor_le x
  have h2 : x < ⌊x⌋ + 1 := Int.lt_floor_add_one x
  unfold roundNearestEven
  split_ifs <;> push_cast <;> linarith

theorem roundNearestEven_ge (x : ℚ) : x - 1 / 2 ≤ (roundNearestEven x : ℚ) := by
  have h1 : (⌊x⌋ : ℚ) ≤ x := Int.floor_le x
  have h2 : x < ⌊x⌋ + 1 := Int.lt_floor_add_one x
  unfold roundNearestEven
  split_ifs <;> push_cast <;> linarith

theorem roundNearestEven_intCast (m : ℤ) :
    roundNearestEven ((m : ℤ) : ℚ) = m := by
  unfold roundNearestEven
  rw [Int.floor_intCast]
  norm_num

theorem int_log2_eq {r : ℚ} {e : ℤ} (h0 : 0 < r) (h1 : (2 : ℚ) ^ e ≤ r)
    (h2 : r < (2 : ℚ) ^ (e + 1)) : Int.log 2 r = e := by
  have hb : (1 : ℕ) < 2 := by norm_num
  have hle : e ≤ Int.log 2 r :=
    (Int.zpow_le_iff_le_log hb h0).mp (by exact_mod_cast h1)
  have hlt : Int.log 2 r < e + 1 :=
    (Int.lt_zpow_iff_log_lt hb h0).mp (by exact_mod_cast h2)
  omega

theorem zpow_log_le (q : ℚ) (hq : 0 < q) : (2 : ℚ) ^ Int.log 2 q ≤ q := by
  have := Int.zpow_log_le_self (b := 2) (r := q) (by norm_num) hq
  exact_mod_cast this

theorem roundDouble_le {q : ℚ} (hq : 0 < q) : roundDouble q ≤ q + q / 2 ^ 53 := by
  have hne : (2 : ℚ) ≠ 0 := by norm_num
  unfold roundDouble
  rw [if_neg hq.ne']
  have hpow : (0 : ℚ) < (2 : ℚ) ^ (Int.log 2 q - 52) := zpow_pos (by norm_num) _
  have step1 : (roundNearestEven (q * 2 ^ (52 - Int.log 2 q)) : ℚ) *
      2 ^ (Int.log 2 q - 52) ≤
      (q * 2 ^ (52 - Int.log 2 q) + 1 / 2) * 2 ^ (Int.log 2 q - 52) :=
    mul_le_mul_of_nonneg_right (roundNearestEven_le _) hpow.le
  refine le_trans step1 ?_
  have hid : q * 2 ^ (52 - Int.log 2 q) * 2 ^ (Int.log 2 q - 52) = q := by
    rw [mul_assoc, ← zpow_add₀ hne]
    norm_num
  have hhalf : (1 / 2 : ℚ) * 2 ^ (Int.log 2 q - 52) =
      2 ^ (Int.log 2 q - 53) := by
    rw [show Int.log 2 q - 53 = Int.log 2 q - 52 + (-1) by ring,
      zpow_add₀ hne]
    norm_num
    ring
  have hbound : (2 : ℚ) ^ (Int.log 2 q - 53) ≤ q / 2 ^ 53 := by
    rw [le_div_iff₀ (by positivity)]
    calc (2 : ℚ) ^ (Int.log 2 q - 53) * 2 ^ (53 : ℕ)
        = 2 ^ (Int.log 2 q - 53) * 2 ^ ((53 : ℕ) : ℤ) := by
          rw [zpow_natCast]
      _ = 2 ^ Int.log 2 q := by
          rw [← zpow_add₀ hne]
          norm_num
      _ ≤ q := zpow_log_le q hq
  rw [add_mul, hid, hhalf]
  exact add_le_add_left hbound q

theorem roundDouble_ge {q : ℚ} (hq : 0 < q) : q - q / 2 ^ 53 ≤ roundDouble q := by
  have hne : (2 : ℚ) ≠ 0 := by norm_num
  unfold roundDouble
  rw [if_neg hq.ne']
  have hpow : (0 : ℚ) < (2 : ℚ) ^ (Int.log 2 q - 52) := zpow_pos (by norm_num) _
  have step1 : (q * 2 ^ (52 - Int.log 2 q) - 1 / 2) * 2 ^ (Int.log 2 q - 52) ≤
      (roundNearestEven (q * 2 ^ (52 - Int.log 2 q)) : ℚ) *
        2 ^ (Int.log 2 q - 52) :=
    mul_le_mul_of_nonneg_right (roundNearestEven_ge _) hpow.le
  refine le_trans ?_ step1
  have hid : q * 2 ^ (52 - Int.log 2 q) * 2 ^ (Int.log 2 q - 52) = q := by
    rw [mul_assoc, ← zpow_add₀ hne]
    norm_num
  have hhalf : (1 / 2 : ℚ) * 2 ^ (Int.log 2 q - 52) =
      2 ^ (Int.log 2 q - 53) := by
    rw [show Int.log 2 q - 53 = Int.log 2 q - 52 + (-1) by ring,
      zpow_add₀ hne]
    norm_num
    ring
  have hbound : (2 : ℚ) ^ (Int.log 2 q - 53) ≤ q / 2 ^ 53 := by
    rw [le_div_iff₀ (by positivity)]
    calc (2 : ℚ) ^ (Int.log 2 q - 53) * 2 ^ (53 : ℕ)
        = 2 ^ (Int.log 2 q - 53) * 2 ^ ((53 : ℕ) : ℤ) := by
          rw [zpow_natCast]
      _ = 2 ^ Int.log 2 q := by
          rw [← zpow_add₀ hne]
          norm_num
      _ ≤ q := zpow_log_le q hq
  rw [sub_mul, hid, hhalf]
  exact sub_le_sub_left hbound q

theorem roundDouble_nat_pos {n : ℕ} (hn : 0 < n) :
    0 < roundDouble (n : ℚ) := by
  have hq : (0 : ℚ) < (n : ℚ) := by exact_mod_cast hn
  have hdiv : (n : ℚ) / 2 ^ 53 < (n : ℚ) := div_lt_self hq (by norm_num)
  have := roundDouble_ge hq
  linarith

theorem split_idx_train_le_valid (n : ℕ) :
    split_idx_train n ≤ split_idx_valid n := by
  rcases Nat.eq_zero_or_pos n with h0 | hpos
  · subst h0
    norm_num [split_idx_train, split_idx_valid, roundDouble, float_0_7,
      float_0_85]
  · have hq : (0 : ℚ) < (n : ℚ) := by exact_mod_cast hpos
    have hr_pos : 0 < roundDouble (n : ℚ) := roundDouble_nat_pos hpos
    have h07 : (0 : ℚ) < float_0_7 := by norm_num [float_0_7]
    have h85 : (0 : ℚ) < float_0_85 := by norm_num [float_0_85]
    have h07pos : 0 < float_0_7 * roundDouble (n : ℚ) := mul_pos h07 hr_pos
    have h85pos : 0 < float_0_85 * roundDouble (n : ℚ) := mul_pos h85 hr_pos
    have hA := roundDouble_le h07pos
    have hB := roundDouble_ge h85pos
    have hc : float_0_7 * (1 + 1 / 2 ^ 53) ≤ float_0_85 * (1 - 1 / 2 ^ 53) := by
      norm_num [float_0_7, float_0_85]
    have hcr := mul_le_mul_of_nonneg_right hc hr_pos.le
    have key : roundDouble (float_0_7 * roundDouble (n : ℚ)) ≤
        roundDouble (float_0_85 * roundDouble (n : ℚ)) := by
      nlinarith [hA, hB, hcr]
    exact Int.toNat_le_toNat (Int.floor_le_floor key)

theorem split_idx_valid_le (n : ℕ) : split_idx_valid n ≤ n := by
  rcases Nat.eq_zero_or_pos n with h0 | hpos
  · subst h0
    norm_num [split_idx_valid, roundDouble, float_0_85]
  · have hq : (0 : ℚ) < (n : ℚ) := by exact_mod_cast hpos
    have hr_pos : 0 < roundDouble (n : ℚ) := roundDouble_nat_pos hpos
    have h85 : (0 : ℚ) < float_0_85 := by norm_num [float_0_85]
    have h85pos : 0 < float_0_85 * roundDouble (n : ℚ) := mul_pos h85 hr_pos
    have hA := roundDouble_le h85pos
    have hr_le := roundDouble_le hq
    have h1 : float_0_85 * roundDouble (n : ℚ) ≤
        float_0_85 * ((n : ℚ) + (n : ℚ) / 2 ^ 53) :=
      mul_le_mul_of_nonneg_left hr_le h85.le
    have hc : float_0_85 * (1 + 1 / 2 ^ 53) * (1 + 1 / 2 ^ 53) < 1 := by
      norm_num [float_0_85]
    have hcn := mul_lt_mul_of_pos_right hc hq
    have hlt : roundDouble (float_0_85 * roundDouble (n : ℚ)) < (n : ℚ) := by
      nlinarith [hA, h1, hcn]
    unfold split_idx_valid
    rw [Int.toNat_le]
    exact le_of_lt (Int.floor_lt.mpr (by exact_mod_cast hlt))

/-- The three `np.split` parts concatenate back to the input list. -/
theorem preprocessing_split_append {α : Type} (Xs : List α) :
    (preprocessing_split Xs).1 ++ (preprocessing_split Xs).2.1 ++
        (preprocessing_split Xs).2.2 = Xs := by
  have hab : split_idx_train Xs.length ≤ split_idx_valid Xs.length :=
    split_idx_train_le_valid _
  have hdrop : Xs.drop (split_idx_valid Xs.length) =
      (Xs.drop (split_idx_train Xs.length)).drop
        (split_idx_valid Xs.length - split_idx_train Xs.length) := by
    rw [List.drop_drop, Nat.add_sub_cancel' hab]
  show Xs.take (split_idx_train Xs.length) ++
      (Xs.drop (split_idx_train Xs.length)).take
        (split_idx_valid Xs.length - split_idx_train Xs.length) ++
      Xs.drop (split_idx_valid Xs.length) = Xs
  rw [List.append_assoc, hdrop, List.take_append_drop, List.take_append_drop]

theorem roundDouble_90 : roundDouble (90 : ℚ) = 90 := by
  have hlog : Int.log 2 (90 : ℚ) = 6 :=
    int_log2_eq (by norm_num)
      (by rw [show (6 : ℤ) = ((6 : ℕ) : ℤ) from rfl, zpow_natCast]; norm_num)
      (by rw [show (6 : ℤ) + 1 = ((7 : ℕ) : ℤ) from rfl, zpow_natCast]; norm_num)
  unfold roundDouble
  rw [if_neg (by norm_num), hlog]
  have h46 : (90 : ℚ) * 2 ^ ((52 : ℤ) - 6) = ((6333186975989760 : ℤ) : ℚ) := by
    rw [show (52 : ℤ) - 6 = ((46 : ℕ) : ℤ) from rfl, zpow_natCast]
    norm_num
  rw [h46, roundNearestEven_intCast]
  rw [show (6 : ℤ) - 52 = -((46 : ℕ) : ℤ) from rfl, zpow_neg, zpow_natCast]
  norm_num

theorem split_idx_train_90 : split_idx_train 90 = 62 := by
  unfold split_idx_train
  rw [show ((90 : ℕ) : ℚ) = (90 : ℚ) by norm_num, roundDouble_90]
  have hq : float_0_7 * (90 : ℚ) = 567453553048682460 / 2 ^ 53 := by
    norm_num [float_0_7]
  rw [hq]
  have hpos : (0 : ℚ) < 567453553048682460 / 2 ^ 53 := by norm_num
  have hlog : Int.log 2 ((567453553048682460 : ℚ) / 2 ^ 53) = 5 :=
    int_log2_eq hpos
      (by rw [show (5 : ℤ) = ((5 : ℕ) : ℤ) from rfl, zpow_natCast]; norm_num)
      (by rw [show (5 : ℤ) + 1 = ((6 : ℕ) : ℤ) from rfl, zpow_natCast]; norm_num)
  unfold roundDouble
  rw [if_neg hpos.ne', hlog]
  have hscaled : (567453553048682460 : ℚ) / 2 ^ 53 * 2 ^ ((52 : ℤ) - 5) =
      8866461766385663 + 7 / 16 := by
    rw [show (52 : ℤ) - 5 = ((47 : ℕ) : ℤ) from rfl, zpow_natCast]
    norm_num
  rw [hscaled]
  have hfl : ⌊(8866461766385663 : ℚ) + 7 / 16⌋ = 8866461766385663 := by
    rw [Int.floor_eq_iff]
    constructor <;> norm_num
  have hrne : roundNearestEven ((8866461766385663 : ℚ) + 7 / 16) =
      8866461766385663 := by
    unfold roundNearestEven
    rw [hfl]
    norm_num
  rw [hrne]
  have hfinal : ((8866461766385663 : ℤ) : ℚ) * 2 ^ ((5 : ℤ) - 52) =
      8866461766385663 / 2 ^ 47 := by
    rw [show (5 : ℤ) - 52 = -((47 : ℕ) : ℤ) from rfl, zpow_neg, zpow_natCast]
    push_cast
    ring
  rw [hfinal]
  have hfl2 : ⌊(8866461766385663 : ℚ) / 2 ^ 47⌋ = 62 := by
    rw [Int.floor_eq_iff]
    constructor <;> norm_num
  rw [hfl2]
  rfl

/-- C4 counterexample: on a 90-row dataset the program's train split has 62
rows — IEEE double arithmetic gives `0.7 * 90 = 62.99999999999999`, so
`int(0.7 * 90) = 62` — while the claimed size `⌊0.7 · 90⌋` is 63. -/
theorem c4_float_split_counterexample :
    (preprocessing_split (List.range 90)).1.length = 62
    ∧ (⌊(7 / 10 : ℚ) * 90⌋).toNat = 63 := by
  constructor
  · show ((List.range 90).take
      (split_idx_train (List.range 90).length)).length = 62
    have hlen : (List.range 90).length = 90 := List.length_range 90
    rw [List.length_take, hlen, split_idx_train_90]
    norm_num
  · have h63 : (7 / 10 : ℚ) * 90 = ((63 : ℤ) : ℚ) := by norm_num
    rw [h63, Int.floor_intCast]
    rfl

/-- C4 (amended): on an already-shuffled row list (any permutation of the
preprocessed rows), the script's `np.split` produces train/validation/test
parts of sizes `int(0.7·n)`, `int(0.85·n) - int(0.7·n)` and
`n - int(0.85·n)`, the indices computed as the program does in IEEE double
arithmetic (62/14/14 at n = 90, not `⌊0.7n⌋`-based 63/13/14); their
concatenation is exactly the shuffled list — hence a permutation of the
preprocessed rows, with every row in exactly one split. -/
theorem c4_preprocessing_split_partition {α : Type} (X Xs : List α)
    (h : Xs.Perm X) :
    (preprocessing_split Xs).1 ++ (preprocessing_split Xs).2.1 ++
        (preprocessing_split Xs).2.2 = Xs
    ∧ ((preprocessing_split Xs).1 ++ (preprocessing_split Xs).2.1 ++
        (preprocessing_split Xs).2.2).Perm X
    ∧ (preprocessing_split Xs).1.length = split_idx_train X.length
    ∧ (preprocessing_split Xs).2.1.length =
        split_idx_valid X.length - split_idx_train X.length
    ∧ (preprocessing_split Xs).2.2.length = X.length - split_idx_valid X.length := by
  have hn : Xs.length = X.length := h.length_eq
  have hab : split_idx_train Xs.length ≤ split_idx_valid Xs.length :=
    split_idx_train_le_valid _
  have hbn : split_idx_valid Xs.length ≤ Xs.length := split_idx_valid_le _
  have han : split_idx_train Xs.length ≤ Xs.length := le_trans hab hbn
  have hcat := preprocessing_split_append Xs
  refine ⟨hcat, by rw [hcat]; exact h, ?_, ?_, ?_⟩
  · show (Xs.take (split_idx_train Xs.length)).length = _
    rw [List.length_take, ← hn, Nat.min_eq_left han]
  · show ((Xs.drop (split_idx_train Xs.length)).take
        (split_idx_valid Xs.length - split_idx_train Xs.length)).length = _
    rw [List.length_take, List.length_drop, ← hn,
      Nat.min_eq_left (Nat.sub_le_sub_right hbn _)]
  · show (Xs.drop (split_idx_valid Xs.length)).length = _
    rw [List.length_drop, ← hn]

/-- Witness for C4 at the concrete shuffled list `[30, 10, 40, 20]`, a
permutation of `[10, 20, 30, 40]`. -/
theorem c4_preprocessing_split_partition_witness :
    ((preprocessing_split ([30, 10, 40, 20] : List ℕ)).1 ++
        (preprocessing_split ([30, 10, 40, 20] : List ℕ)).2.1 ++
        (preprocessing_split ([30, 10, 40, 20] : List ℕ)).2.2 = [30, 10, 40, 20])
    ∧ (preprocessing_split ([30, 10, 40, 20] : List ℕ)).1.length =
        split_idx_train 4
    ∧ (preprocessing_split ([30, 10, 40, 20] : List ℕ)).2.1.length =
        split_idx_valid 4 - split_idx_train 4
    ∧ (preprocessing_split ([30, 10, 40, 20] : List ℕ)).2.2.length =
        4 - split_idx_valid 4 := by
  have h := c4_preprocessing_split_partition ([10, 20, 30, 40] : List ℕ)
    [30, 10, 40, 20] (by decide)
  exact ⟨h.1, h.2.2.1, h.2.2.2.1, h.2.2.2.2⟩

theorem pollTrace_all_creating (status : ℕ → String)
    (hall : ∀ j, status j = "Creating") :
    ∀ fuel k, (pollTrace status fuel k).2 = none := by
  intro fuel
  induction fuel with
  | zero => intro k; rfl
  | succ n ih =>
    intro k
    simp only [pollTrace, hall k, if_pos]
    exact ih (k + 1)

theorem pollTrace_some_spec (status : ℕ → String) :
    ∀ fuel start tr k, pollTrace status fuel start = (tr, some k) →
      start ≤ k ∧ status k ≠ "Creating" ∧
      (∀ j, start ≤ j → j < k → status j = "Creating") ∧
      tr = List.replicate (k - start) 60 := by
  intro fuel
  induction fuel with
  | zero => intro start tr k hEq; simp [pollTrace] at hEq
  | succ n ih =>
    intro start tr k hEq
    by_cases hc : status start = "Creating"
    · rcases hp : pollTrace status n (start + 1) with ⟨tr', r⟩
      simp [pollTrace, hc, hp] at hEq
      obtain ⟨htr, hr⟩ := hEq
      obtain ⟨hsk, hnc, hrange, hrep⟩ := ih (start + 1) tr' k (by rw [hp, hr])
      refine ⟨le_trans (Nat.le_succ start) hsk, hnc, ?_, ?_⟩
      · intro j hj1 hj2
        rcases Nat.eq_or_lt_of_le hj1 with hj | hj
        · rw [← hj]; exact hc
        · exact hrange j hj hj2
      · rw [← htr, hrep, show k - start = (k - (start + 1)) + 1 by omega]
        rfl
    · simp [pollTrace, hc] at hEq
      obtain ⟨htr, hk⟩ := hEq
      subst hk
      refine ⟨le_rfl, hc, ?_, by rw [htr]; simp⟩
      intro j hj1 hj2
      omega

theorem pollTrace_exit_spec (status : ℕ → String) :
    ∀ m start, (∀ j, start ≤ j → j < start + m → status j = "Creating") →
      status (start + m) ≠ "Creating" →
      (pollTrace status (m + 1) start).2 = some (start + m) := by
  intro m
  induction m with
  | zero =>
    intro start _ hs
    rw [Nat.add_zero] at hs
    simp [pollTrace, hs]
  | succ m ih =>
    intro start hall hs
    have hc : status start = "Creating" := hall start le_rfl (by omega)
    simp only [pollTrace, hc, if_pos]
    have heq : start + 1 + m = start + (m + 1) := by omega
    have := ih (start + 1) (fun j h1 h2 => hall j (by omega) (by omega))
      (by rw [heq]; exact hs)
    rw [heq] at this
    exact this

/-- C6: the polling loop sleeps a fixed 60 seconds between describes with no
backoff or timeout: while every describe reports `"Creating"` it never exits
(for any fuel); when it exits after the k-th describe, that status is not
`"Creating"`, every earlier describe reported `"Creating"`, and exactly k
sleeps of 60 seconds were performed; and it terminates if and only if some
describe eventually reports a status other than `"Creating"`. -/
theorem c6_poll_until_not_creating (status : ℕ → String) :
    (∀ fuel k, (∀ j, status j = "Creating") → (pollTrace status fuel k).2 = none)
    ∧ (∀ fuel tr k, pollTrace status fuel 0 = (tr, some k) →
        status k ≠ "Creating" ∧ (∀ j, j < k → status j = "Creating")
          ∧ tr = List.replicate k 60)
    ∧ ((∃ k, status k ≠ "Creating") ↔
        ∃ fuel, ((pollTrace status fuel 0).2).isSome = true) := by
  refine ⟨fun fuel k hall => pollTrace_all_creating status hall fuel k, ?_, ?_, ?_⟩
  · intro fuel tr k hEq
    obtain ⟨_, hnc, hrange, hrep⟩ := pollTrace_some_spec status fuel 0 tr k hEq
    exact ⟨hnc, fun j hj => hrange j (Nat.zero_le j) hj, by simpa using hrep⟩
  · rintro ⟨k, hk⟩
    have hex : ∃ j, status j ≠ "Creating" := ⟨k, hk⟩
    have hfind := Nat.find_spec hex
    refine ⟨Nat.find hex + 1, ?_⟩
    have := pollTrace_exit_spec status (Nat.find hex) 0
      (fun j _ hj => by
        have := Nat.find_min hex (by simpa using hj)
        simpa using not_not.mp this)
      (by simpa using hfind)
    rw [this]
    rfl
  · rintro ⟨fuel, hf⟩
    rcases hsome : (pollTrace status fuel 0).2 with _ | k
    · rw [hsome] at hf; simp at hf
    · obtain ⟨_, hnc, _, _⟩ := pollTrace_some_spec status fuel 0
        (pollTrace status fuel 0).1 k (Prod.ext_iff.mpr ⟨rfl, hsome⟩)
      exact ⟨k, hnc⟩

/-- Witness for C6: with a status history that reports `"Creating"` twice
and then `"InService"`, the loop performs exactly two 60-second sleeps
before exiting. -/
theorem c6_poll_until_not_creating_witness :
    statusW 2 ≠ "Creating" ∧ ([60, 60] : List ℕ) = List.replicate 2 60 :=
  ⟨((c6_poll_until_not_creating statusW).2.1 3 [60, 60] 2 (by decide)).1,
   ((c6_poll_until_not_creating statusW).2.1 3 [60, 60] 2 (by decide)).2.2⟩

/-- C7: the invoke request body is the comma-separated CSV serialization,
header-free and index-free, of the first five test rows with the `fraud`
column dropped (one `\n`-terminated line per row); the decoded response is
split on commas and newlines and its first five entries are paired
positionally with the first five `fraud` labels. -/
theorem c7_invoke_serialization (df : DataFrame) (resp : String) :
    invoke_payload df =
      String.join (((df.rows.take 5).map
        (fun r => r.eraseIdx (df.cols.indexOf "fraud"))).map
        (fun r => String.intercalate "," r ++ "\n"))
    ∧ (ilocTake (dropColumn df "fraud") 5).rows.length = min 5 df.rows.length
    ∧ prediction_pairs df resp =
        List.zip ((re_split_commas_newlines resp).take 5)
          ((df.rows.map (fun r => r.getD (df.cols.indexOf "fraud") "")).take 5) := by
  refine ⟨?_, ?_, rfl⟩
  · unfold invoke_payload to_csv_no_header ilocTake dropColumn
    rw [← List.map_take]
  · unfold ilocTake dropColumn
    simp [List.length_take]

/-- C8: for every SDK call site of either notebook, an error `e` raised at
that call aborts the run with exactly `e` (not caught, classified, or
transformed), after attempting exactly the chronologically earlier calls
once each and the failing call once (no local retry, no further calls).
Sites are exercised by oracles whose other calls return benign values. -/
theorem c8_errors_propagate_unchanged (ε : Type) (e : ε) :
    serverlessRunT (smOracleFail e 0) 30 = (["list_models"], Except.error e)
    ∧ serverlessRunT (smOracleFail e 1) 30 =
        (["list_models", "create_model"], Except.error e)
    ∧ serverlessRunT (smOracleFail e 2) 30 =
        (["list_models", "create_model", "list_endpoint_configs"],
         Except.error e)
    ∧ serverlessRunT (smOracleFail e 3) 30 =
        (["list_models", "create_model", "list_endpoint_configs",
          "create_endpoint_config"], Except.error e)
    ∧ serverlessRunT (smOracleFail e 4) 30 =
        (["list_models", "create_model", "list_endpoint_configs",
          "create_endpoint_config", "list_endpoints"], Except.error e)
    ∧ serverlessRunT (smOracleFail e 5) 30 =
        (["list_models", "create_model", "list_endpoint_configs",
          "create_endpoint_config", "list_endpoints", "create_endpoint"],
         Except.error e)
    ∧ serverlessRunT (smOracleFail e 6) 30 =
        (["list_models", "create_model", "list_endpoint_configs",
          "create_endpoint_config", "list_endpoints", "create_endpoint",
          "describe_endpoint"], Except.error e)
    ∧ serverlessRunT (smOracleFail e 7) 30 =
        (["list_models", "create_model", "list_endpoint_configs",
          "create_endpoint_config", "list_endpoints", "create_endpoint",
          "describe_endpoint", "describe_endpoint"], Except.error e)
    ∧ serverlessRunT (smOracleFail e 8) 30 =
        (["list_models", "create_model", "list_endpoint_configs",
          "create_endpoint_config", "list_endpoints", "create_endpoint",
          "describe_endpoint", "invoke_endpoint"], Except.error e)
    ∧ serverlessRunT (smOracleFail e 9) 30 =
        (["list_models", "create_model", "list_endpoint_configs",
          "create_endpoint_config", "list_endpoints", "create_endpoint",
          "describe_endpoint", "invoke_endpoint", "delete_model"],
         Except.error e)
    ∧ serverlessRunT (smOracleFail e 10) 30 =
        (["list_models", "create_model", "list_endpoint_configs",
          "create_endpoint_config", "list_endpoints", "create_endpoint",
          "describe_endpoint", "invoke_endpoint", "delete_model",
          "delete_endpoint_config"], Except.error e)
    ∧ serverlessRunT (smOracleFail e 11) 30 =
        (["list_models", "create_model", "list_endpoint_configs",
          "create_endpoint_config", "list_endpoints", "create_endpoint",
          "describe_endpoint", "invoke_endpoint", "delete_model",
          "delete_endpoint_config", "delete_endpoint"], Except.error e)
    ∧ pipelineRunT (pipelineOracleFail e 0) = (["download_file"], Except.error e)
    ∧ pipelineRunT (pipelineOracleFail e 1) =
        (["download_file", "upload"], Except.error e)
    ∧ pipelineRunT (pipelineOracleFail e 2) =
        (["download_file", "upload", "download_file"], Except.error e)
    ∧ pipelineRunT (pipelineOracleFail e 3) =
        (["download_file", "upload", "download_file", "upload"], Except.error e)
    ∧ pipelineRunT (pipelineOracleFail e 4) =
        (["download_file", "upload", "download_file", "upload", "upsert"],
         Except.error e) :=
  ⟨rfl, rfl, rfl, rfl, rfl, rfl, rfl, rfl, rfl, rfl, rfl, rfl, rfl, rfl,
   rfl, rfl, rfl⟩

/-- C9: in each of the three serverless-notebook cells, the create call is
issued exactly when the name-contains list call returns an empty result;
when a matching entity exists the cell issues no create, leaves the service
state unchanged, and prints a message instead. -/
theorem c9_creates_guarded_by_list (svc : SmService) :
    ((create_model_cell svc).2 = [Action.createModel model_name] ↔
        list_models svc model_name = [])
    ∧ (list_models svc model_name ≠ [] →
        (create_model_cell svc).1 = svc ∧
        (create_model_cell svc).2 = [Action.printed ("Model with name " ++
          model_name ++ " already exists! Change model name to create new")])
    ∧ (list_models svc model_name = [] →
        (create_model_cell svc).1 =
          { svc with models := svc.models ++ [model_name] })
    ∧ ((create_endpoint_config_cell svc).2 =
          [Action.createEndpointConfig endpoint_config_name] ↔
        list_endpoint_configs svc endpoint_config_name = [])
    ∧ (list_endpoint_configs svc endpoint_config_name ≠ [] →
        (create_endpoint_config_cell svc).1 = svc ∧
        (create_endpoint_config_cell svc).2 =
          [Action.printed ("Endpoint config with name " ++
            endpoint_config_name ++
            " already exists! Change endpoint config name to create new")])
    ∧ (list_endpoint_configs svc endpoint_config_name = [] →
        (create_endpoint_config_cell svc).1 =
          { svc with endpointConfigs :=
              svc.endpointConfigs ++ [endpoint_config_name] })
    ∧ ((create_endpoint_cell svc).2 = [Action.createEndpoint endpoint_name] ↔
        list_endpoints svc endpoint_name = [])
    ∧ (list_endpoints svc endpoint_name ≠ [] →
        (create_endpoint_cell svc).1 = svc ∧
        (create_endpoint_cell svc).2 =
          [Action.printed ("Endpoint with name " ++ endpoint_name ++
            " already exists! Change endpoint name to create new")])
    ∧ (list_endpoints svc endpoint_name = [] →
        (create_endpoint_cell svc).1 =
          { svc with endpoints := svc.endpoints ++ [endpoint_name] }) := by
  refine ⟨?_, ?_, ?_, ?_, ?_, ?_, ?_, ?_, ?_⟩
  · by_cases hm : list_models svc model_name = [] <;>
      simp [create_model_cell, List.isEmpty_iff, hm]
  · intro hm; simp [create_model_cell, List.isEmpty_iff, hm]
  · intro hm; simp [create_model_cell, List.isEmpty_iff, hm]
  · by_cases hc : list_endpoint_configs svc endpoint_config_name = [] <;>
      simp [create_endpoint_config_cell, List.isEmpty_iff, hc]
  · intro hc; simp [create_endpoint_config_cell, List.isEmpty_iff, hc]
  · intro hc; simp [create_endpoint_config_cell, List.isEmpty_iff, hc]
  · by_cases he : list_endpoints svc endpoint_name = [] <;>
      simp [create_endpoint_cell, List.isEmpty_iff, he]
  · intro he; simp [create_endpoint_cell, List.isEmpty_iff, he]
  · intro he; simp [create_endpoint_cell, List.isEmpty_iff, he]

/-- Witness for C9: with all three entities already existing, each cell
leaves the service state unchanged. -/
theorem c9_creates_guarded_by_list_witness :
    (create_model_cell svcExisting).1 = svcExisting
    ∧ (create_endpoint_config_cell svcExisting).1 = svcExisting
    ∧ (create_endpoint_cell svcExisting).1 = svcExisting :=
  ⟨((c9_creates_guarded_by_list svcExisting).2.1 (by decide)).1,
   ((c9_creates_guarded_by_list svcExisting).2.2.2.2.1 (by decide)).1,
   ((c9_creates_guarded_by_list svcExisting).2.2.2.2.2.2.2.1 (by decide)).1⟩

theorem preprocess_rows_heads :
    ∀ (y : List ℚ) (X : List (List ℚ)), y.length = X.length →
      (preprocess_rows y X).map List.headI = y := by
  intro y
  induction y with
  | nil => intro X _; rfl
  | cons a ys ih =>
    intro X h
    cases X with
    | nil => simp at h
    | cons xx Xt =>
      simp only [preprocess_rows, List.zipWith_cons_cons, List.map_cons]
      exact congrArg (List.cons a) (ih Xt (by simpa using h))

theorem preprocess_rows_tails :
    ∀ (y : List ℚ) (X : List (List ℚ)), y.length = X.length →
      (preprocess_rows y X).map List.tail = X := by
  intro y
  induction y with
  | nil =>
    intro X h
    have : X = [] := List.length_eq_zero.mp (by simpa using h.symm)
    rw [this]; rfl
  | cons a ys ih =>
    intro X h
    cases X with
    | nil => simp at h
    | cons xx Xt =>
      simp only [preprocess_rows, List.zipWith_cons_cons, List.map_cons]
      exact congrArg (List.cons xx) (ih Xt (by simpa using h))

theorem preprocess_rows_mem :
    ∀ (y : List ℚ) (X : List (List ℚ)) (r : List ℚ),
      r ∈ preprocess_rows y X → ∃ a x, r = a :: x := by
  intro y
  induction y with
  | nil => intro X r hr; simp [preprocess_rows] at hr
  | cons a ys ih =>
    intro X r hr
    cases X with
    | nil => simp [preprocess_rows] at hr
    | cons xx Xt =>
      simp only [preprocess_rows, List.zipWith_cons_cons, List.mem_cons] at hr
      rcases hr with h | h
      · exact ⟨a, xx, h⟩
      · exact ih Xt r h

/-- C10: the preprocessing script writes every row with the `rings` label
first and the transformed features after it, and the evaluation script
recovers exactly the labels from column 0 and the features from the rest;
every row of the three written splits has this label-first layout. -/
theorem c10_label_first_row_layout (y : List ℚ) (X : List (List ℚ))
    (h : y.length = X.length) :
    eval_y_test (preprocess_rows y X) = y
    ∧ eval_x_test (preprocess_rows y X) = X
    ∧ ∀ Xs : List (List ℚ), Xs.Perm (preprocess_rows y X) →
        ∀ r ∈ (preprocessing_split Xs).1 ++ (preprocessing_split Xs).2.1 ++
            (preprocessing_split Xs).2.2,
          r ∈ preprocess_rows y X ∧ r.headI :: r.tail = r := by
  refine ⟨preprocess_rows_heads y X h, preprocess_rows_tails y X h, ?_⟩
  intro Xs hperm r hr
  rw [preprocessing_split_append] at hr
  have hmem : r ∈ preprocess_rows y X := hperm.mem_iff.mp hr
  obtain ⟨a, x, rfl⟩ := preprocess_rows_mem y X r hmem
  exact ⟨hmem, rfl⟩

/-- Witness for C10 at a concrete two-row dataset. -/
theorem c10_label_first_row_layout_witness :
    eval_y_test (preprocess_rows [1, 2] [[10], [20]]) = [1, 2]
    ∧ eval_x_test (preprocess_rows [1, 2] [[10], [20]]) = [[10], [20]] :=
  ⟨(c10_label_first_row_layout [1, 2] [[10], [20]] (by decide)).1,
   (c10_label_first_row_layout [1, 2] [[10], [20]] (by decide)).2.1⟩

end Spec2Proof
